import Mathlib

/-!
TaskFlow client: session, task cache and derived views.

A shallow embedding of the state-synchronisation code of the TaskFlow front end
(`src/App.jsx`, `src/pages/Login.jsx`, `src/pages/Register.jsx`,
`src/pages/Dashboard.jsx`, `src/component/Navbar.jsx`).

Conventions of the embedding.

* JavaScript strings are Lean strings. Status values are kept as the strings the
  source compares against: `"TODO"`, `"IN_PROGRESS"`, `"DONE"`. The specification
  calls the first of them NOT_STARTED; the filter values `"all"`, `"pending"`,
  `"completed"` are the specification's ALL, PENDING, COMPLETED.
* A field that may be `null` or `undefined` is an `Option`.
* `String.prototype.toLowerCase` and the `Date` constructor are library code; the
  definitions take them as parameters (`toLowerCase`, `parseDate`).
* An `async` handler is split at its `await`: the part that runs up to the
  suspension point, and the continuation that runs when the remote call settles.
-/

namespace TaskFlow

/-! ## Data model -/

/-- A task as the remote returns it and the dashboard caches it. -/
structure Task where
  id : Nat
  title : String
  description : Option String
  status : String
  priority : String
  dueDate : Option String
  deriving DecidableEq, Repr

/-- The four counters shown on the dashboard. -/
structure Stats where
  total : Nat
  completed : Nat
  pending : Nat
  overdue : Nat
  deriving DecidableEq, Repr

/-! ## Derived views (`Dashboard.jsx`, lines 55-78) -/

/-- `s.includes(q)`: the characters of `q` occur contiguously in `s`. -/
def includes (s q : String) : Bool :=
  decide (q.data <:+: s.data)

/-- The callback of `tasks.filter` at line 66: `matchesStatus && matchesSearch`. -/
def matchesTask (toLowerCase : String → String) (searchQuery filterStatus : String)
    (task : Task) : Bool :=
  let matchesStatus :=
    filterStatus == "all" ||
    (filterStatus == "completed" && task.status == "DONE") ||
    (filterStatus == "pending" && (task.status == "TODO" || task.status == "IN_PROGRESS"))
  let matchesSearch :=
    searchQuery == "" ||
    includes (toLowerCase task.title) (toLowerCase searchQuery) ||
    includes (toLowerCase (task.description.getD "")) (toLowerCase searchQuery)
  matchesStatus && matchesSearch

/-- The derived list `filteredTasks` (line 66). -/
def filteredTasks (toLowerCase : String → String) (tasks : List Task)
    (searchQuery filterStatus : String) : List Task :=
  tasks.filter (matchesTask toLowerCase searchQuery filterStatus)

/-- The callback of the `overdue` counter (line 61):
`t.dueDate && new Date(t.dueDate) < new Date() && t.status !== "DONE"`.
`parseDate d` is the time value of `new Date(d)`, `none` for an invalid date
(every comparison with it is false); `now` is the time value of `new Date()`,
one instant for the whole pass over the list. -/
def isOverdue (parseDate : String → Option Int) (now : Int) (t : Task) : Bool :=
  match t.dueDate with
  | none => false
  | some d =>
    d != "" &&
    (match parseDate d with
     | some ms => decide (ms < now)
     | none => false) &&
    t.status != "DONE"

/-- The derived record `stats` (line 56). -/
def stats (parseDate : String → Option Int) (now : Int) (tasks : List Task) : Stats :=
  { total := tasks.length
    completed := (tasks.filter fun t => t.status == "DONE").length
    pending := (tasks.filter fun t => t.status == "TODO" || t.status == "IN_PROGRESS").length
    overdue := (tasks.filter (isOverdue parseDate now)).length }

/-- The status computed at line 101: `task.status === "DONE" ? "TODO" : "DONE"`. -/
def newStatus (task : Task) : String :=
  if task.status == "DONE" then "TODO" else "DONE"

/-! ## Remote calls -/

/-- The body of a response the way `err.response?.data` is inspected: a string,
or anything that is not a string. For the latter `truthy` records whether JavaScript
takes the value for true (an object, a non-zero number) or not (`null`, `0`, `false`). -/
inductive Body where
  | text (s : String)
  | other (truthy : Bool)
  deriving DecidableEq, Repr

/-- A rejected remote call. `data` is `err.response?.data`; `none` when there is
no response at all, or a response without a body. -/
structure ApiError where
  data : Option Body
  deriving DecidableEq, Repr

/-- The body sent by `api.put` at lines 103-109. -/
structure PutBody where
  title : String
  description : Option String
  status : String
  priority : String
  dueDate : Option String
  deriving DecidableEq, Repr

/-- The `newTask` state of the dashboard (lines 28-34): the fields of the form. -/
structure Draft where
  title : String
  description : String
  priority : String
  status : String
  dueDate : String
  deriving DecidableEq, Repr

/-- The body sent by `api.post` at line 89: `{ ...newTask, dueDate: ... }`. -/
structure Payload where
  title : String
  description : String
  priority : String
  status : String
  dueDate : Option String
  deriving DecidableEq, Repr

/-- Remote calls the dashboard issues. -/
inductive Request where
  | getTasks
  | putTask (id : Nat) (body : PutBody)
  | deleteTask (id : Nat)
  | postTask (payload : Payload)
  deriving DecidableEq, Repr

/-- A `try { body } catch (err) { handler }` block: `handler` runs when `body` throws. -/
def tryElse {ε α : Type} (body : Except ε α) (handler : ε → Except ε α) : Except ε α :=
  match body with
  | .ok a => .ok a
  | .error e => handler e

/-- JavaScript `x || null` on an optional string: the empty string is falsy. -/
def orNull : Option String → Option String
  | some s => if s == "" then none else some s
  | none => none

/-! ## Task cache (`Dashboard.jsx`, lines 41-130) -/

/-- The dashboard state the handlers touch: the cached list and the console. -/
structure DashState where
  tasks : List Task
  console : List String
  deriving DecidableEq, Repr

/-- What a synchronous stretch of a handler leaves behind: the component state and
the remote calls issued during it, which are now in flight. -/
structure Step where
  state : DashState
  issued : List Request
  deriving DecidableEq, Repr

/-- `fetchTasks` up to `await api.get("/api/tasks")` (line 44). -/
def fetchTasks_start (st : DashState) : Step :=
  { state := st, issued := [Request.getTasks] }

/-- `fetchTasks` from the moment the GET settles (lines 44-48); `st` is the state
at that moment. The result is `Except.error` when the function would throw. -/
def fetchTasks_settle (res : Except ApiError (List Task)) (st : DashState) :
    Except ApiError DashState :=
  tryElse
    (match res with
     | .ok data => .ok { st with tasks := data }
     | .error err => .error err)
    (fun _ => .ok { st with console := st.console ++ ["Failed to fetch tasks"] })

/-- `handleToggleTask` up to `await api.put(...)` (lines 101-109). -/
def handleToggleTask_start (task : Task) (st : DashState) : Step :=
  { state := st
    issued := [Request.putTask task.id
      { title := task.title
        description := task.description
        status := newStatus task
        priority := task.priority
        dueDate := orNull task.dueDate }] }

/-- `handleToggleTask` from the moment the PUT settles (lines 110-117). On success the
functional update of line 111 is applied to the state of that moment; on failure
`fetchTasks()` is called and not awaited, so its GET is in flight on return. -/
def handleToggleTask_settle (task : Task) (res : Except ApiError Unit) (st : DashState) :
    Except ApiError Step :=
  tryElse
    (match res with
     | .ok _ =>
       .ok { state := { st with tasks := st.tasks.map fun t =>
                          if t.id == task.id then { t with status := newStatus task } else t }
             issued := [] }
     | .error err => .error err)
    (fun _ =>
      .ok (fetchTasks_start { st with console := st.console ++ ["Failed to update task"] }))

/-- `handleDeleteTask` up to `await api.delete(...)` (lines 122-124); `confirmed` is
what `window.confirm` returned. -/
def handleDeleteTask_start (confirmed : Bool) (taskId : Nat) (st : DashState) : Step :=
  if !confirmed then { state := st, issued := [] }
  else { state := st, issued := [Request.deleteTask taskId] }

/-- `handleDeleteTask` from the moment the DELETE settles (lines 125-129). -/
def handleDeleteTask_settle (taskId : Nat) (res : Except ApiError Unit) (st : DashState) :
    Except ApiError Step :=
  tryElse
    (match res with
     | .ok _ =>
       .ok { state := { st with tasks := st.tasks.filter fun t => t.id != taskId }
             issued := [] }
     | .error err => .error err)
    (fun _ =>
      .ok (fetchTasks_start { st with console := st.console ++ ["Failed to delete task"] }))

/-! ## Session (`App.jsx`, `Login.jsx`, `Register.jsx`, logout handlers) -/

/-- The object kept under the `user` key, after `JSON.parse`. -/
structure StoredUser where
  name : Option String
  email : Option String
  deriving DecidableEq, Repr

/-- The two `localStorage` slots the client uses; `none` is an absent key. -/
structure LocalStorage where
  token : Option String
  user : Option StoredUser
  deriving DecidableEq, Repr

/-- Persisted storage together with the `isAuthenticated` state of `App`. -/
structure Session where
  storage : LocalStorage
  isAuthenticated : Bool
  deriving DecidableEq, Repr

/-- JavaScript `!!localStorage.getItem("token")`: the key is present and its value
is not the empty string. -/
def hasToken (storage : LocalStorage) : Bool :=
  match storage.token with
  | some tok => tok != ""
  | none => false

/-- The initial state of `App` (lines 8-11), read from storage on first render. -/
def App.init (storage : LocalStorage) : Session :=
  { storage := storage, isAuthenticated := hasToken storage }

/-- The `auth-change` listener (line 16). -/
def App.handler (s : Session) : Session :=
  { s with isAuthenticated := hasToken s.storage }

/-- The `onLogin` and `onRegister` props (lines 26, 30). -/
def App.onLogin (s : Session) : Session :=
  { s with isAuthenticated := true }

/-- The `onLogout` prop (line 34). -/
def App.onLogout (s : Session) : Session :=
  { s with isAuthenticated := false }

/-- The state of the login form, and of the register form. -/
structure FormState where
  error : String
  isLoading : Bool
  deriving DecidableEq, Repr

/-- The message chosen in both `catch` blocks:
`typeof msg === "string" && msg ? msg : fallback` with `msg = err.response?.data`. -/
def errorMessage (fallback : String) (err : ApiError) : String :=
  match err.data with
  | some (Body.text msg) => if msg != "" then msg else fallback
  | _ => fallback

/-- `handleLogin` up to the `await` (lines 13-20). -/
def handleLogin_start (_form : FormState) : FormState :=
  { error := "", isLoading := true }

/-- `handleLogin` from the moment the POST settles (lines 21-35). `email` is the
address the form held when it was submitted, `res` the raw token on success. -/
def handleLogin_settle (email : String) (res : Except ApiError String)
    (form : FormState) (s : Session) : FormState × Session :=
  match res with
  | .ok token =>
    ({ form with isLoading := false },
     App.onLogin { s with storage :=
       { token := some token, user := some { name := none, email := some email } } })
  | .error err =>
    ({ error := errorMessage "Invalid email or password" err, isLoading := false }, s)

/-- The body of a successful register response: `{ token, name, email }`. -/
structure RegisterData where
  token : String
  name : String
  email : String
  deriving DecidableEq, Repr

/-- `handleRegister` up to the `await` (lines 12-18). -/
def handleRegister_start (_form : FormState) : FormState :=
  { error := "", isLoading := true }

/-- `handleRegister` from the moment the POST settles (lines 18-29). -/
def handleRegister_settle (res : Except ApiError RegisterData)
    (form : FormState) (s : Session) : FormState × Session :=
  match res with
  | .ok data =>
    ({ form with isLoading := false },
     App.onLogin { s with storage :=
       { token := some data.token
         user := some { name := some data.name, email := some data.email } } })
  | .error err =>
    ({ error := errorMessage "Registration failed. Please try again." err, isLoading := false }, s)

/-- `handleLogout` of the dashboard (lines 133-137). -/
def handleLogout (s : Session) : Session :=
  App.onLogout { s with storage := { token := none, user := none } }

/-- `logout` of `Navbar.jsx` (lines 6-9): removes the `token` key and navigates;
neither the `user` key nor the state of `App` is touched. -/
def Navbar.logout (s : Session) : Session :=
  { s with storage := { s.storage with token := none } }

/-- The transitions of the session: a settled login or register call, the logout of
the dashboard, and the `auth-change` event. -/
inductive SessionEvent where
  | login (email : String) (res : Except ApiError String)
  | register (res : Except ApiError RegisterData)
  | logout
  | authChange

/-- One transition of the session. -/
def Session.step (s : Session) : SessionEvent → Session
  | .login email res => (handleLogin_settle email res { error := "", isLoading := true } s).2
  | .register res => (handleRegister_settle res { error := "", isLoading := true } s).2
  | .logout => handleLogout s
  | .authChange => App.handler s

/-- The session after a sequence of transitions. -/
def Session.run (s : Session) (events : List SessionEvent) : Session :=
  events.foldl Session.step s

/-- The event is not a success response with an empty token. -/
def SessionEvent.tokenNonEmpty : SessionEvent → Prop
  | .login _ (.ok token) => token ≠ ""
  | .register (.ok data) => data.token ≠ ""
  | _ => True

/-- The `isAuthenticated` state agrees with what storage holds. -/
def Session.consistent (s : Session) : Prop :=
  s.isAuthenticated = true ↔ ∃ tok, s.storage.token = some tok ∧ tok ≠ ""

/-! ## Creating a task (`Dashboard.jsx`, lines 81-97) -/

/-- The form of the new-task dialog: the draft and whether the dialog is open. -/
structure CreateForm where
  newTask : Draft
  showNewTaskModal : Bool
  deriving DecidableEq, Repr

/-- What a stretch of `handleCreateTask` leaves behind: the dashboard state, the
form, the remote calls now in flight and the values passed to `alert`. -/
structure CreateStep where
  state : DashState
  form : CreateForm
  issued : List Request
  alerts : List Body
  deriving DecidableEq, Repr

/-- The payload built at lines 85-88: the draft with `dueDate: newTask.dueDate || null`. -/
def payload (newTask : Draft) : Payload :=
  { title := newTask.title
    description := newTask.description
    priority := newTask.priority
    status := newTask.status
    dueDate := orNull (some newTask.dueDate) }

/-- The value of `err.response?.data || "Failed to create task"` (line 95). -/
def alertValue (err : ApiError) : Body :=
  match err.data with
  | some (Body.text msg) => if msg != "" then Body.text msg else Body.text "Failed to create task"
  | some (Body.other true) => Body.other true
  | _ => Body.text "Failed to create task"

/-- `handleCreateTask` up to `await api.post(...)` (lines 82-89). -/
def handleCreateTask_start (form : CreateForm) (st : DashState) : CreateStep :=
  { state := st, form := form, issued := [Request.postTask (payload form.newTask)], alerts := [] }

/-- `handleCreateTask` from the moment the POST settles (lines 90-96). On success the
form is reset and closed and `fetchTasks()` is called; on failure the error is
logged and passed to `alert`. -/
def handleCreateTask_settle (res : Except ApiError Unit) (form : CreateForm)
    (st : DashState) : Except ApiError CreateStep :=
  tryElse
    (match res with
     | .ok _ =>
       .ok { state := (fetchTasks_start st).state
             form := { newTask := { title := "", description := "", priority := "MEDIUM",
                                    status := "TODO", dueDate := "" }
                       showNewTaskModal := false }
             issued := (fetchTasks_start st).issued
             alerts := [] }
     | .error err => .error err)
    (fun err =>
      .ok { state := { st with console := st.console ++ ["Failed to create task"] }
            form := form
            issued := []
            alerts := [alertValue err] })

/-! ## Display name (`Dashboard.jsx`, lines 36-39) -/

/-- `email.split("@")[0]`: the text before the first `@`, the whole text when there
is none. -/
def localPart (email : String) : String :=
  String.mk (email.data.takeWhile fun c => c != '@')

/-- `JSON.parse(localStorage.getItem("user") || "{}")` (line 37). -/
def storedUser (storage : LocalStorage) : StoredUser :=
  match storage.user with
  | some u => u
  | none => { name := none, email := none }

/-- `storedUser.name || storedUser.email?.split("@")[0] || "User"` (line 38). -/
def userName (u : StoredUser) : String :=
  match orNull u.name with
  | some name => name
  | none =>
    match orNull (u.email.map localPart) with
    | some l => l
    | none => "User"

/-! ## Render-time evaluation of the derived list -/

/-- Everything in scope when the body of `Dashboard` runs: its state hooks, the
persisted storage and the clock. -/
structure RenderState where
  tasks : List Task
  searchQuery : String
  filterStatus : String
  newTask : Draft
  showNewTaskModal : Bool
  showUserMenu : Bool
  showMobileMenu : Bool
  storage : LocalStorage
  now : Int
  deriving DecidableEq, Repr

/-- The evaluation of lines 66-78 in a render: the derived list, and the state the
evaluation leaves behind. `Array.prototype.filter` builds a new array and the
callback assigns nothing. -/
def renderFilteredTasks (toLowerCase : String → String) (r : RenderState) :
    List Task × RenderState :=
  (filteredTasks toLowerCase r.tasks r.searchQuery r.filterStatus, r)

/-- Milliseconds in a day. -/
def msPerDay : Int := 86400000

/-! ## The dashboard against a remote -/

/-- The remote service as the dashboard meets it when it updates and lists tasks: a
state `R`, what a PUT does to that state and how it answers, and the list a GET
returns. -/
structure Remote (R : Type) where
  put : R → Nat → PutBody → R × Except ApiError Unit
  list : R → List Task

/-- The remote stores the last written value: a PUT that repeats the body just
written leaves the list the remote returns as it is. -/
def Remote.storesLastWrite {R : Type} (m : Remote R) : Prop :=
  ∀ (r : R) (id : Nat) (body : PutBody),
    m.list (m.put (m.put r id body).1 id body).1 = m.list (m.put r id body).1

/-- A call of `fetchTasks` served by the remote `m`: the GET of `fetchTasks_start`
is answered with the list the remote holds. -/
def runRefresh {R : Type} (m : Remote R) (w : R × DashState) :
    Except ApiError (R × DashState) :=
  match fetchTasks_settle (.ok (m.list w.1)) (fetchTasks_start w.2).state with
  | .ok st => .ok (w.1, st)
  | .error err => .error err

/-- A call of `handleToggleTask task` served by the remote `m`: the PUT in flight
after `handleToggleTask_start` is applied to the remote and its answer is handed to
`handleToggleTask_settle`; a GET issued on the failure path is answered with the
list the remote holds. -/
def runToggle {R : Type} (m : Remote R) (task : Task) (w : R × DashState) :
    Except ApiError (R × DashState) :=
  match (handleToggleTask_start task w.2).issued with
  | [Request.putTask id body] =>
    match handleToggleTask_settle task (m.put w.1 id body).2
        (handleToggleTask_start task w.2).state with
    | .ok step =>
      if step.issued = [Request.getTasks] then
        match fetchTasks_settle (.ok (m.list (m.put w.1 id body).1)) step.state with
        | .ok st => .ok ((m.put w.1 id body).1, st)
        | .error err => .error err
      else .ok ((m.put w.1 id body).1, step.state)
    | .error err => .error err
  | _ => .ok w

/-- A remote that keeps the tasks in a list, accepts every PUT and overwrites the
fields of the tasks with the given id. -/
def listRemote : Remote (List Task) where
  put := fun r id body =>
    (r.map fun t =>
      if t.id == id then
        { t with title := body.title, description := body.description, status := body.status
                 priority := body.priority, dueDate := body.dueDate }
      else t,
     .ok ())
  list := fun r => r

/-- The ids of the cached tasks are pairwise distinct. -/
def distinctIds (tasks : List Task) : Prop :=
  tasks.Pairwise fun a b => a.id ≠ b.id

/-! ## Auxiliary facts -/

theorem isOverdue_iff (parseDate : String → Option Int) (now : Int) (t : Task) :
    isOverdue parseDate now t = true ↔
      ∃ d ms, t.dueDate = some d ∧ d ≠ "" ∧ parseDate d = some ms ∧ ms < now ∧
        t.status ≠ "DONE" := by
  unfold isOverdue
  cases hd : t.dueDate with
  | none => simp
  | some d =>
    cases hp : parseDate d with
    | none => simp [hp]
    | some ms => simp [hp, and_assoc]

theorem completed_add_pending (tasks : List Task)
    (h : ∀ t ∈ tasks, t.status = "TODO" ∨ t.status = "IN_PROGRESS" ∨ t.status = "DONE") :
    (tasks.filter fun t => t.status == "DONE").length +
      (tasks.filter fun t => t.status == "TODO" || t.status == "IN_PROGRESS").length =
      tasks.length := by
  induction tasks with
  | nil => rfl
  | cons t rest ih =>
    have hrest := ih (fun u hu => h u (List.mem_cons_of_mem t hu))
    rcases h t (List.mem_cons_self t rest) with ht | ht | ht <;>
      simp [List.filter_cons, ht] <;> omega

theorem hasToken_iff (storage : LocalStorage) :
    hasToken storage = true ↔ ∃ tok, storage.token = some tok ∧ tok ≠ "" := by
  unfold hasToken
  cases storage.token <;> simp

theorem step_consistent (s : Session) (ev : SessionEvent) (hs : s.consistent)
    (hev : ev.tokenNonEmpty) : (s.step ev).consistent := by
  cases ev with
  | login email res =>
    cases res with
    | error err => exact hs
    | ok token =>
      have htok : token ≠ "" := hev
      simp [Session.consistent, Session.step, handleLogin_settle, App.onLogin, htok]
  | register res =>
    cases res with
    | error err => exact hs
    | ok data =>
      have htok : data.token ≠ "" := hev
      simp [Session.consistent, Session.step, handleRegister_settle, App.onLogin, htok]
  | logout => simp [Session.consistent, Session.step, handleLogout, App.onLogout]
  | authChange =>
    simp only [Session.consistent, Session.step, App.handler]
    exact hasToken_iff s.storage

theorem run_consistent (events : List SessionEvent) :
    ∀ s : Session, s.consistent → (∀ ev ∈ events, ev.tokenNonEmpty) →
      (s.run events).consistent := by
  induction events with
  | nil => intro s hs _; exact hs
  | cons ev rest ih =>
    intro s hs h
    exact ih (s.step ev)
      (step_consistent s ev hs (h ev (List.mem_cons_self ev rest)))
      (fun e he => h e (List.mem_cons_of_mem ev he))

theorem errorMessage_ne_empty (fallback : String) (err : ApiError) (h : fallback ≠ "") :
    errorMessage fallback err ≠ "" := by
  unfold errorMessage
  split
  · split
    · simp_all
    · exact h
  · exact h

theorem localPart_append (a b : String) (h : '@' ∉ a.data) :
    localPart (a ++ "@" ++ b) = a := by
  have hall : ∀ c ∈ a.data, (c != '@') = true := by
    intro c hc
    have hne : c ≠ '@' := fun hcc => h (hcc ▸ hc)
    simpa using hne
  have hdata : (a ++ "@" ++ b).data = a.data ++ ('@' :: b.data) := by
    simp [String.data_append]
  unfold localPart
  rw [hdata, List.takeWhile_append_of_pos hall]
  simp

theorem userName_of_name (u : StoredUser) (name : String) (h : u.name = some name)
    (hne : name ≠ "") : userName u = name := by
  simp [userName, orNull, h, hne]

theorem userName_of_email (u : StoredUser) (email : String)
    (h : u.name = none ∨ u.name = some "") (he : u.email = some email)
    (hne : localPart email ≠ "") : userName u = localPart email := by
  rcases h with h | h <;> simp [userName, orNull, h, he, hne]

theorem userName_default (u : StoredUser) (h : u.name = none ∨ u.name = some "")
    (he : u.email = none ∨ ∃ email, u.email = some email ∧ localPart email = "") :
    userName u = "User" := by
  rcases he with he | ⟨email, he, hl⟩
  · rcases h with h | h <;> simp [userName, orNull, h, he]
  · rcases h with h | h <;> simp [userName, orNull, h, he, hl]

theorem toggle_map_id (task : Task) (tasks : List Task) :
    (tasks.map fun t =>
      if t.id == task.id then { t with status := newStatus task } else t).map Task.id =
      tasks.map Task.id := by
  rw [List.map_map]
  apply List.map_congr_left
  intro t _
  by_cases h : t.id = task.id <;> simp [h]

theorem toggle_map_idem (task : Task) (tasks : List Task) :
    ((tasks.map fun t =>
      if t.id == task.id then { t with status := newStatus task } else t).map fun t =>
      if t.id == task.id then { t with status := newStatus task } else t) =
      tasks.map fun t =>
        if t.id == task.id then { t with status := newStatus task } else t := by
  rw [List.map_map]
  apply List.map_congr_left
  intro t _
  by_cases h : t.id = task.id <;> simp [h]

theorem runRefresh_eq {R : Type} (m : Remote R) (w : R × DashState) :
    runRefresh m w = .ok (w.1, { w.2 with tasks := m.list w.1 }) :=
  rfl

theorem runToggle_ok {R : Type} (m : Remote R) (task : Task) (w : R × DashState) :
    ∃ st : DashState,
      runToggle m task w =
        .ok ((m.put w.1 task.id
          { title := task.title, description := task.description, status := newStatus task
            priority := task.priority, dueDate := orNull task.dueDate }).1, st) := by
  unfold runToggle
  simp only [handleToggleTask_start]
  cases hres : (m.put w.1 task.id
      { title := task.title, description := task.description, status := newStatus task
        priority := task.priority, dueDate := orNull task.dueDate }).2 with
  | ok u =>
    exact ⟨{ w.2 with tasks := w.2.tasks.map fun t =>
              if t.id == task.id then { t with status := newStatus task } else t },
      by simp [handleToggleTask_settle, tryElse]⟩
  | error err =>
    exact ⟨{ tasks := m.list (m.put w.1 task.id
              { title := task.title, description := task.description
                status := newStatus task, priority := task.priority
                dueDate := orNull task.dueDate }).1
             console := w.2.console ++ ["Failed to update task"] },
      by simp [handleToggleTask_settle, tryElse, fetchTasks_start, fetchTasks_settle]⟩

theorem listRemote_storesLastWrite : listRemote.storesLastWrite := by
  intro r id body
  simp only [listRemote, List.map_map]
  apply List.map_congr_left
  intro t _
  by_cases h : t.id = id <;> simp [h]

/-! ## Derived views: filter -/

/-- C1. A task is in the filtered list exactly when it is in the snapshot, passes the
status filter (filter `"all"`, or `"completed"` with status `"DONE"`, or `"pending"`
with status `"TODO"` (NOT_STARTED) or `"IN_PROGRESS"`) and passes the search (empty
search text, or the lower-cased text occurs in the lower-cased title, or in the
lower-cased description, an absent description read as the empty string). With empty
search text and filter `"pending"`, tasks with statuses DONE, NOT_STARTED,
IN_PROGRESS are filtered to the second and the third. -/
theorem filteredTasks_spec (toLowerCase : String → String) :
    (∀ (tasks : List Task) (searchQuery filterStatus : String) (task : Task),
      task ∈ filteredTasks toLowerCase tasks searchQuery filterStatus ↔
        task ∈ tasks ∧
        (filterStatus = "all" ∨
          (filterStatus = "completed" ∧ task.status = "DONE") ∨
          (filterStatus = "pending" ∧
            (task.status = "TODO" ∨ task.status = "IN_PROGRESS"))) ∧
        (searchQuery = "" ∨
          (toLowerCase searchQuery).data <:+: (toLowerCase task.title).data ∨
          (toLowerCase searchQuery).data <:+:
            (toLowerCase (task.description.getD "")).data)) ∧
    (∀ a b c : Task, a.status = "DONE" → b.status = "TODO" → c.status = "IN_PROGRESS" →
      filteredTasks toLowerCase [a, b, c] "" "pending" = [b, c]) := by
  refine ⟨?_, ?_⟩
  · intro tasks searchQuery filterStatus task
    simp [filteredTasks, matchesTask, includes, List.mem_filter, or_assoc]
  · intro a b c ha hb hc
    simp [filteredTasks, matchesTask, List.filter_cons, ha, hb, hc]

/-- C1, at a concrete snapshot. -/
theorem filteredTasks_spec_witness :
    filteredTasks String.toLower
      [⟨1, "Pay rent", none, "DONE", "HIGH", none⟩,
       ⟨2, "Buy milk", some "two litres", "TODO", "LOW", none⟩,
       ⟨3, "Write report", none, "IN_PROGRESS", "MEDIUM", some "2024-05-01"⟩]
      "" "pending" =
      [⟨2, "Buy milk", some "two litres", "TODO", "LOW", none⟩,
       ⟨3, "Write report", none, "IN_PROGRESS", "MEDIUM", some "2024-05-01"⟩] :=
  (filteredTasks_spec String.toLower).2 _ _ _ rfl rfl rfl

/-! ## Derived views: statistics -/

/-- C2. `stats` counts: `total` is the number of tasks, `completed` the number with
status `"DONE"`, `pending` the number with status `"TODO"` (NOT_STARTED) or
`"IN_PROGRESS"`, `overdue` the number whose due date is present, parses to an instant
strictly before `now`, and whose status is not `"DONE"`. The snapshot
[DONE due yesterday, NOT_STARTED due yesterday, NOT_STARTED without due date] has
total 3, completed 1, pending 2, overdue 1. -/
theorem stats_spec (parseDate : String → Option Int) (now : Int) :
    (∀ tasks : List Task,
      (stats parseDate now tasks).total = tasks.length ∧
      (stats parseDate now tasks).completed = tasks.countP (fun t => t.status = "DONE") ∧
      (stats parseDate now tasks).pending =
        tasks.countP (fun t => t.status = "TODO" ∨ t.status = "IN_PROGRESS") ∧
      (stats parseDate now tasks).overdue = tasks.countP (isOverdue parseDate now)) ∧
    (∀ t : Task, isOverdue parseDate now t = true ↔
      ∃ d ms, t.dueDate = some d ∧ d ≠ "" ∧ parseDate d = some ms ∧ ms < now ∧
        t.status ≠ "DONE") ∧
    (∀ (yesterday : String) (ms : Int) (a b c : Task),
      yesterday ≠ "" → parseDate yesterday = some ms → ms < now →
      a.status = "DONE" → a.dueDate = some yesterday →
      b.status = "TODO" → b.dueDate = some yesterday →
      c.status = "TODO" → c.dueDate = none →
      stats parseDate now [a, b, c] =
        { total := 3, completed := 1, pending := 2, overdue := 1 }) := by
  refine ⟨?_, isOverdue_iff parseDate now, ?_⟩
  · intro tasks
    refine ⟨rfl, ?_, ?_, ?_⟩
    · simp only [stats, List.countP_eq_length_filter]
      congr 2
    · simp only [stats, List.countP_eq_length_filter]
      congr 2
      funext t
      rw [Bool.decide_or]
      rfl
    · simp only [stats, List.countP_eq_length_filter]
  · intro yesterday ms a b c hy hp hlt ha hda hb hdb hc hdc
    simp [stats, isOverdue, List.filter_cons, ha, hb, hc, hda, hdb, hdc, hp, hlt, hy]

/-- C2, at a concrete snapshot: midnight of the due date is 86400000 ms before `now`. -/
theorem stats_spec_witness :
    stats (fun _ => some 0) 86400000
      [⟨1, "Pay rent", none, "DONE", "HIGH", some "2024-04-30"⟩,
       ⟨2, "Buy milk", none, "TODO", "LOW", some "2024-04-30"⟩,
       ⟨3, "Write report", none, "TODO", "MEDIUM", none⟩] =
      { total := 3, completed := 1, pending := 2, overdue := 1 } :=
  (stats_spec (fun _ => some 0) 86400000).2.2 "2024-04-30" 0 _ _ _
    (by decide) rfl (by decide) rfl rfl rfl rfl rfl rfl

/-- C3. When every status in the snapshot is one of `"TODO"` (NOT_STARTED),
`"IN_PROGRESS"`, `"DONE"`, the counters satisfy completed + pending = total. -/
theorem stats_completed_add_pending (parseDate : String → Option Int) (now : Int)
    (tasks : List Task)
    (h : ∀ t ∈ tasks, t.status = "TODO" ∨ t.status = "IN_PROGRESS" ∨ t.status = "DONE") :
    (stats parseDate now tasks).completed + (stats parseDate now tasks).pending =
      (stats parseDate now tasks).total :=
  completed_add_pending tasks h

/-- C3, at a concrete snapshot. -/
theorem stats_completed_add_pending_witness :
    (stats (fun _ => none) 0
        [⟨1, "a", none, "DONE", "LOW", none⟩, ⟨2, "b", none, "IN_PROGRESS", "LOW", none⟩,
         ⟨3, "c", none, "TODO", "LOW", none⟩]).completed +
      (stats (fun _ => none) 0
        [⟨1, "a", none, "DONE", "LOW", none⟩, ⟨2, "b", none, "IN_PROGRESS", "LOW", none⟩,
         ⟨3, "c", none, "TODO", "LOW", none⟩]).pending =
      (stats (fun _ => none) 0
        [⟨1, "a", none, "DONE", "LOW", none⟩, ⟨2, "b", none, "IN_PROGRESS", "LOW", none⟩,
         ⟨3, "c", none, "TODO", "LOW", none⟩]).total :=
  stats_completed_add_pending (fun _ => none) 0 _ (by
    intro t ht
    simp only [List.mem_cons, List.mem_singleton, List.not_mem_nil, or_false] at ht
    rcases ht with rfl | rfl | rfl <;> simp)

/-! ## Task cache -/

/-- C4. The status computed by the toggle is `"DONE"` for every status other than
`"DONE"` and `"TODO"` (NOT_STARTED) for `"DONE"`; a task that was `"IN_PROGRESS"`
and is toggled twice, each toggle acknowledged by the remote, is cached with status
`"TODO"`, not with its earlier status. -/
theorem newStatus_spec :
    (∀ task : Task, task.status ≠ "DONE" → newStatus task = "DONE") ∧
    (∀ task : Task, task.status = "DONE" → newStatus task = "TODO") ∧
    (∀ task : Task, task.status = "IN_PROGRESS" →
      newStatus { task with status := newStatus task } = "TODO") ∧
    (∀ (task : Task) (st : DashState), task.status = "IN_PROGRESS" → task ∈ st.tasks →
      ∃ st1 st2 : DashState,
        handleToggleTask_settle task (.ok ()) st = .ok { state := st1, issued := [] } ∧
        { task with status := "DONE" } ∈ st1.tasks ∧
        handleToggleTask_settle { task with status := "DONE" } (.ok ()) st1 =
          .ok { state := st2, issued := [] } ∧
        { task with status := "TODO" } ∈ st2.tasks ∧
        ∀ t ∈ st2.tasks, t.id = task.id → t.status = "TODO") := by
  refine ⟨?_, ?_, ?_, ?_⟩
  · intro task h
    simp [newStatus, h]
  · intro task h
    simp [newStatus, h]
  · intro task h
    simp [newStatus, h]
  · intro task st h hmem
    have h1 : { task with status := "DONE" } ∈ st.tasks.map (fun t =>
        if t.id == task.id then { t with status := newStatus task } else t) :=
      List.mem_map.mpr ⟨task, hmem, by simp [newStatus, h]⟩
    refine ⟨_, _, rfl, h1, rfl, ?_, ?_⟩
    · exact List.mem_map.mpr ⟨{ task with status := "DONE" }, h1, by simp [newStatus]⟩
    · intro t ht hid
      obtain ⟨u, _, rfl⟩ := List.mem_map.mp ht
      by_cases hu : u.id = task.id
      · simp [hu, newStatus]
      · simp [hu] at hid

/-- C4, at a concrete task and cache. -/
theorem newStatus_spec_witness :
    newStatus ⟨7, "Write report", none, "IN_PROGRESS", "MEDIUM", none⟩ = "DONE" ∧
    newStatus ⟨7, "Write report", none, "DONE", "MEDIUM", none⟩ = "TODO" :=
  ⟨newStatus_spec.1 ⟨7, "Write report", none, "IN_PROGRESS", "MEDIUM", none⟩ (by decide),
   newStatus_spec.2.1 ⟨7, "Write report", none, "DONE", "MEDIUM", none⟩ rfl⟩

/-- C5. What the code does at the suspension point: `handleToggleTask` and
`handleDeleteTask` issue the remote call with the cache untouched. For the cache
holding one task with status `"TODO"`, the cache still shows `"TODO"` while the PUT
is in flight (the toggle computes `"DONE"`), a failed PUT leaves it at `"TODO"`,
and the task is still cached while its DELETE is in flight. -/
theorem mutation_start_keeps_cache :
    (∀ (task : Task) (st : DashState),
      (handleToggleTask_start task st).state = st ∧
      ∃ body, (handleToggleTask_start task st).issued = [Request.putTask task.id body]) ∧
    (∀ (taskId : Nat) (st : DashState),
      handleDeleteTask_start true taskId st =
        { state := st, issued := [Request.deleteTask taskId] }) ∧
    newStatus ⟨1, "Buy milk", none, "TODO", "LOW", none⟩ = "DONE" ∧
    (handleToggleTask_start ⟨1, "Buy milk", none, "TODO", "LOW", none⟩
        { tasks := [⟨1, "Buy milk", none, "TODO", "LOW", none⟩], console := [] }).state.tasks =
      [⟨1, "Buy milk", none, "TODO", "LOW", none⟩] ∧
    handleToggleTask_settle ⟨1, "Buy milk", none, "TODO", "LOW", none⟩ (.error ⟨none⟩)
        { tasks := [⟨1, "Buy milk", none, "TODO", "LOW", none⟩], console := [] } =
      .ok { state := { tasks := [⟨1, "Buy milk", none, "TODO", "LOW", none⟩]
                       console := ["Failed to update task"] }
            issued := [Request.getTasks] } ∧
    (handleDeleteTask_start true 1
        { tasks := [⟨1, "Buy milk", none, "TODO", "LOW", none⟩], console := [] }).state.tasks =
      [⟨1, "Buy milk", none, "TODO", "LOW", none⟩] := by
  refine ⟨fun task st => ⟨rfl, _, rfl⟩, fun taskId st => rfl, ?_, rfl, rfl, rfl⟩
  simp [newStatus]

/-- C6. When the PUT issued by `handleToggleTask` fails, the handler returns
normally with the cached list as it was (nothing is reverted task by task) and a GET
in flight; when that GET succeeds, whatever the state of that moment, the cache is
the list the remote returned. -/
theorem handleToggleTask_failure_refetches (task : Task) (err : ApiError)
    (st : DashState) :
    ∃ st1 : DashState,
      handleToggleTask_settle task (.error err) st =
        .ok { state := st1, issued := [Request.getTasks] } ∧
      st1.tasks = st.tasks ∧
      ∀ (remote : List Task) (st2 : DashState),
        ∃ st3 : DashState,
          fetchTasks_settle (.ok remote) st2 = .ok st3 ∧ st3.tasks = remote :=
  ⟨_, rfl, rfl, fun _ _ => ⟨_, rfl, rfl⟩⟩

/-- C7. `fetchTasks` never throws. When the GET succeeds the cache becomes exactly
the returned list, whatever it held before; when the GET fails the cache is the
previous list. -/
theorem fetchTasks_settle_spec :
    (∀ (data : List Task) (st : DashState),
      ∃ st1 : DashState, fetchTasks_settle (.ok data) st = .ok st1 ∧ st1.tasks = data) ∧
    (∀ (err : ApiError) (st : DashState),
      ∃ st1 : DashState,
        fetchTasks_settle (.error err) st = .ok st1 ∧ st1.tasks = st.tasks) ∧
    (∀ (res : Except ApiError (List Task)) (st : DashState) (err : ApiError),
      fetchTasks_settle res st ≠ .error err) := by
  refine ⟨fun _ _ => ⟨_, rfl, rfl⟩, fun _ _ => ⟨_, rfl, rfl⟩, ?_⟩
  intro res st err
  cases res <;> simp [fetchTasks_settle, tryElse]

/-! ## Session -/

/-- C8. `handleLogout` of the dashboard removes both keys from every state. `logout`
of `Navbar.jsx` removes `token` only: from a session with a token and a stored
user it leaves the `user` key, and the `isAuthenticated` state, as they were. -/
theorem Navbar_logout_keeps_user :
    (∀ s : Session, (handleLogout s).storage = { token := none, user := none }) ∧
    (∀ s : Session, (Navbar.logout s).storage.token = none ∧
      (Navbar.logout s).storage.user = s.storage.user ∧
      (Navbar.logout s).isAuthenticated = s.isAuthenticated) ∧
    Navbar.logout
        { storage := { token := some "jwt", user := some ⟨none, some "ann@example.org"⟩ }
          isAuthenticated := true } =
      { storage := { token := none, user := some ⟨none, some "ann@example.org"⟩ }
        isAuthenticated := true } :=
  ⟨fun _ => rfl, fun _ => ⟨rfl, rfl, rfl⟩, rfl⟩

/-- C9, as stated, fails: starting from empty storage, a login whose success response
is the empty string leaves `isAuthenticated` true with the empty string under
`token`, and reading that storage afresh gives `isAuthenticated` false. -/
theorem session_inconsistent_on_empty_token :
    ((App.init { token := none, user := none }).run
        [SessionEvent.login "ann@example.org" (.ok "")]).isAuthenticated = true ∧
    ((App.init { token := none, user := none }).run
        [SessionEvent.login "ann@example.org" (.ok "")]).storage.token = some "" ∧
    ¬ ((App.init { token := none, user := none }).run
        [SessionEvent.login "ann@example.org" (.ok "")]).consistent ∧
    (App.init ((App.init { token := none, user := none }).run
        [SessionEvent.login "ann@example.org" (.ok "")]).storage).isAuthenticated = false := by
  refine ⟨rfl, rfl, ?_, rfl⟩
  simp [Session.consistent, Session.run, Session.step, handleLogin_settle, App.onLogin,
    App.init]

/-- C9, amended. Provided no success response carries an empty token, after every
sequence of transitions from the initial read of storage `isAuthenticated` is true
exactly when a non-empty token is persisted; and a successful login with a
non-empty token persists that token, sets `isAuthenticated`, and reading the same
storage afresh gives `isAuthenticated` true. -/
theorem session_consistent (storage : LocalStorage) (events : List SessionEvent)
    (h : ∀ ev ∈ events, ev.tokenNonEmpty) :
    (((App.init storage).run events).isAuthenticated = true ↔
      ∃ tok, ((App.init storage).run events).storage.token = some tok ∧ tok ≠ "") ∧
    (∀ email token : String, token ≠ "" →
      (((App.init storage).run events).step (.login email (.ok token))).storage.token =
        some token ∧
      (((App.init storage).run events).step (.login email (.ok token))).isAuthenticated =
        true ∧
      (App.init (((App.init storage).run events).step
        (.login email (.ok token))).storage).isAuthenticated = true) := by
  refine ⟨run_consistent events (App.init storage) (hasToken_iff storage) h, ?_⟩
  intro email token htok
  refine ⟨rfl, rfl, ?_⟩
  simp [App.init, Session.step, handleLogin_settle, App.onLogin, hasToken, htok]

/-- C9 amended, at a concrete run: register, logout, then login. -/
theorem session_consistent_witness :
    ((App.init { token := none, user := none }).run
        [SessionEvent.register (.ok ⟨"jwt-1", "Ann", "ann@example.org"⟩),
         SessionEvent.logout,
         SessionEvent.login "ann@example.org" (.error ⟨none⟩),
         SessionEvent.login "ann@example.org" (.ok "jwt-2")]).isAuthenticated = true ↔
      ∃ tok, ((App.init { token := none, user := none }).run
        [SessionEvent.register (.ok ⟨"jwt-1", "Ann", "ann@example.org"⟩),
         SessionEvent.logout,
         SessionEvent.login "ann@example.org" (.error ⟨none⟩),
         SessionEvent.login "ann@example.org" (.ok "jwt-2")]).storage.token = some tok ∧
        tok ≠ "" :=
  (session_consistent { token := none, user := none }
    [SessionEvent.register (.ok ⟨"jwt-1", "Ann", "ann@example.org"⟩),
     SessionEvent.logout,
     SessionEvent.login "ann@example.org" (.error ⟨none⟩),
     SessionEvent.login "ann@example.org" (.ok "jwt-2")]
    (by
      intro ev hev
      simp only [List.mem_cons, List.mem_singleton, List.not_mem_nil, or_false] at hev
      rcases hev with rfl | rfl | rfl | rfl <;> simp [SessionEvent.tokenNonEmpty])).1

/-- C10. A failed login and a failed register leave the persisted token, the
persisted user and `isAuthenticated` as they were, and set the form's error to a
non-empty message. -/
theorem failed_auth_keeps_session :
    (∀ (email : String) (err : ApiError) (form : FormState) (s : Session),
      (handleLogin_settle email (.error err) form s).2.storage.token = s.storage.token ∧
      (handleLogin_settle email (.error err) form s).2.storage.user = s.storage.user ∧
      (handleLogin_settle email (.error err) form s).2.isAuthenticated = s.isAuthenticated ∧
      (handleLogin_settle email (.error err) form s).1.error ≠ "") ∧
    (∀ (err : ApiError) (form : FormState) (s : Session),
      (handleRegister_settle (.error err) form s).2.storage.token = s.storage.token ∧
      (handleRegister_settle (.error err) form s).2.storage.user = s.storage.user ∧
      (handleRegister_settle (.error err) form s).2.isAuthenticated = s.isAuthenticated ∧
      (handleRegister_settle (.error err) form s).1.error ≠ "") :=
  ⟨fun _ err _ _ => ⟨rfl, rfl, rfl, errorMessage_ne_empty _ err (by decide)⟩,
   fun err _ _ => ⟨rfl, rfl, rfl, errorMessage_ne_empty _ err (by decide)⟩⟩

/-! ## Error messages of login and register -/

/-- C11. After a failed login the form's error is the remote's body itself when
that body is a non-empty string, and `"Invalid email or password"` when there is no
response, when the body is the empty string, and when the body is not a string. -/
theorem login_error_message (email : String) (form : FormState) (s : Session) :
    (∀ msg : String, msg ≠ "" →
      (handleLogin_settle email (.error ⟨some (Body.text msg)⟩) form s).1.error = msg) ∧
    (handleLogin_settle email (.error ⟨none⟩) form s).1.error =
      "Invalid email or password" ∧
    (handleLogin_settle email (.error ⟨some (Body.text "")⟩) form s).1.error =
      "Invalid email or password" ∧
    (∀ truthy : Bool,
      (handleLogin_settle email (.error ⟨some (Body.other truthy)⟩) form s).1.error =
        "Invalid email or password") := by
  refine ⟨?_, rfl, rfl, fun _ => rfl⟩
  intro msg hmsg
  simp [handleLogin_settle, errorMessage, hmsg]

/-- C11, at a concrete rejection. -/
theorem login_error_message_witness :
    (handleLogin_settle "ann@example.org" (.error ⟨some (Body.text "Invalid credentials")⟩)
        { error := "", isLoading := true }
        (App.init { token := none, user := none })).1.error = "Invalid credentials" :=
  (login_error_message "ann@example.org" { error := "", isLoading := true }
    (App.init { token := none, user := none })).1 "Invalid credentials" (by decide)

/-! ## Creating a task -/

/-- C12. The payload sent by `handleCreateTask` has no due date when the draft's due
date is empty and the draft's due date when it is not; title, description, priority
and status are the draft's; the due date sent is never the empty string. -/
theorem payload_spec (form : CreateForm) (st : DashState) :
    (handleCreateTask_start form st).issued = [Request.postTask (payload form.newTask)] ∧
    (form.newTask.dueDate = "" → (payload form.newTask).dueDate = none) ∧
    (form.newTask.dueDate ≠ "" →
      (payload form.newTask).dueDate = some form.newTask.dueDate) ∧
    (payload form.newTask).title = form.newTask.title ∧
    (payload form.newTask).description = form.newTask.description ∧
    (payload form.newTask).priority = form.newTask.priority ∧
    (payload form.newTask).status = form.newTask.status ∧
    (payload form.newTask).dueDate ≠ some "" := by
  refine ⟨rfl, ?_, ?_, rfl, rfl, rfl, rfl, ?_⟩
  · intro h
    simp [payload, orNull, h]
  · intro h
    simp [payload, orNull, h]
  · by_cases h : form.newTask.dueDate = ""
    · simp [payload, orNull, h]
    · simp [payload, orNull, h]

/-- C12, at two concrete drafts: one without and one with a due date. -/
theorem payload_spec_witness :
    (payload ⟨"Buy milk", "", "MEDIUM", "TODO", ""⟩).dueDate = none ∧
    (payload ⟨"Buy milk", "", "MEDIUM", "TODO", "2024-05-01"⟩).dueDate =
      some "2024-05-01" :=
  ⟨(payload_spec ⟨⟨"Buy milk", "", "MEDIUM", "TODO", ""⟩, true⟩
      { tasks := [], console := [] }).2.1 rfl,
   (payload_spec ⟨⟨"Buy milk", "", "MEDIUM", "TODO", "2024-05-01"⟩, true⟩
      { tasks := [], console := [] }).2.2.1 (by decide)⟩

/-- C13. When the POST of `handleCreateTask` fails, the handler returns normally,
the cached list is the one it was before the call, no remote call is issued (so no
refresh), the form is kept, and exactly one value is passed to `alert`: the
remote's body when it is a non-empty string, `"Failed to create task"` when there
is no response. -/
theorem handleCreateTask_failure (err : ApiError) (form : CreateForm) (st : DashState) :
    (handleCreateTask_start form st).state = st ∧
    ∃ out : CreateStep,
      handleCreateTask_settle (.error err) form st = .ok out ∧
      out.state.tasks = st.tasks ∧
      out.issued = [] ∧
      out.form = form ∧
      out.alerts = [alertValue err] ∧
      (∀ msg : String, msg ≠ "" → err.data = some (Body.text msg) →
        out.alerts = [Body.text msg]) ∧
      (err.data = none → out.alerts = [Body.text "Failed to create task"]) := by
  refine ⟨rfl, _, rfl, rfl, rfl, rfl, rfl, ?_, ?_⟩
  · intro msg hmsg hdata
    simp [alertValue, hdata, hmsg]
  · intro hdata
    simp [alertValue, hdata]

/-- C13, at a concrete rejection by the remote. -/
theorem handleCreateTask_failure_witness :
    ∃ out : CreateStep,
      handleCreateTask_settle (.error ⟨some (Body.text "Title is required")⟩)
          ⟨⟨"", "", "MEDIUM", "TODO", ""⟩, true⟩
          { tasks := [⟨1, "Buy milk", none, "TODO", "LOW", none⟩], console := [] } = .ok out ∧
      out.state.tasks = [⟨1, "Buy milk", none, "TODO", "LOW", none⟩] ∧
      out.issued = [] ∧
      out.alerts = [Body.text "Title is required"] := by
  obtain ⟨_, out, hout, htasks, hissued, _, _, hmsg, _⟩ :=
    handleCreateTask_failure ⟨some (Body.text "Title is required")⟩
      ⟨⟨"", "", "MEDIUM", "TODO", ""⟩, true⟩
      { tasks := [⟨1, "Buy milk", none, "TODO", "LOW", none⟩], console := [] }
  exact ⟨out, hout, htasks, hissued, hmsg "Title is required" (by decide) rfl⟩

/-! ## The body of the status update -/

/-- C14, as stated, fails: for a cached task whose due date is the empty string the
PUT carries no due date. -/
theorem put_body_empty_dueDate :
    (handleToggleTask_start ⟨1, "Buy milk", none, "TODO", "LOW", some ""⟩
        { tasks := [⟨1, "Buy milk", none, "TODO", "LOW", some ""⟩], console := [] }).issued =
      [Request.putTask 1
        { title := "Buy milk", description := none, status := "DONE", priority := "LOW"
          dueDate := none }] ∧
    (none : Option String) ≠
      (⟨1, "Buy milk", none, "TODO", "LOW", some ""⟩ : Task).dueDate := by
  refine ⟨by decide, by decide⟩

/-- C14, amended. The PUT issued by `handleToggleTask` carries the task's title,
description and priority, the new status, and the task's due date, except that a
due date that is the empty string is sent as absent. -/
theorem put_body_spec (task : Task) (st : DashState) :
    ∃ body : PutBody,
      (handleToggleTask_start task st).issued = [Request.putTask task.id body] ∧
      body.title = task.title ∧
      body.description = task.description ∧
      body.priority = task.priority ∧
      body.status = newStatus task ∧
      (task.dueDate ≠ some "" → body.dueDate = task.dueDate) ∧
      (task.dueDate = some "" → body.dueDate = none) := by
  refine ⟨_, rfl, rfl, rfl, rfl, rfl, ?_, ?_⟩
  · intro h
    cases hd : task.dueDate with
    | none => simp [orNull]
    | some d =>
      have hne : d ≠ "" := fun hd2 => h (by rw [hd, hd2])
      simp [orNull, hne]
  · intro h
    simp [orNull, h]

/-- C14 amended, at a concrete task with a due date. -/
theorem put_body_spec_witness :
    ∃ body : PutBody,
      (handleToggleTask_start ⟨1, "Buy milk", some "two litres", "TODO", "LOW", some "2024-05-01"⟩
          { tasks := [], console := [] }).issued = [Request.putTask 1 body] ∧
      body.dueDate = some "2024-05-01" := by
  obtain ⟨body, h1, _, _, _, _, h6, _⟩ :=
    put_body_spec ⟨1, "Buy milk", some "two litres", "TODO", "LOW", some "2024-05-01"⟩
      { tasks := [], console := [] }
  exact ⟨body, h1, h6 (by decide)⟩

/-! ## Failed delete -/

/-- C15. When the DELETE issued by `handleDeleteTask` fails, the handler returns
normally with the cached list as it was and a GET in flight; when that GET succeeds
the cache is the list the remote returned, so a task the remote still holds is in
the cache. -/
theorem handleDeleteTask_failure_refetches (taskId : Nat) (err : ApiError)
    (st : DashState) :
    ∃ st1 : DashState,
      handleDeleteTask_settle taskId (.error err) st =
        .ok { state := st1, issued := [Request.getTasks] } ∧
      st1.tasks = st.tasks ∧
      ∀ (remote : List Task) (st2 : DashState),
        ∃ st3 : DashState,
          fetchTasks_settle (.ok remote) st2 = .ok st3 ∧
          st3.tasks = remote ∧
          ∀ t ∈ remote, t.id = taskId → t ∈ st3.tasks :=
  ⟨_, rfl, rfl, fun _ _ => ⟨_, rfl, rfl, fun _ ht _ => ht⟩⟩

/-- C15, at a concrete cache: the remote still holds task 1. -/
theorem handleDeleteTask_failure_refetches_witness :
    ∃ st3 : DashState,
      fetchTasks_settle (.ok [⟨1, "Buy milk", none, "TODO", "LOW", none⟩])
          { tasks := [], console := ["Failed to delete task"] } = .ok st3 ∧
      (⟨1, "Buy milk", none, "TODO", "LOW", none⟩ : Task) ∈ st3.tasks := by
  obtain ⟨_, _, _, h⟩ :=
    handleDeleteTask_failure_refetches 1 ⟨none⟩
      { tasks := [⟨1, "Buy milk", none, "TODO", "LOW", none⟩], console := [] }
  obtain ⟨st3, h1, _, h3⟩ := h [⟨1, "Buy milk", none, "TODO", "LOW", none⟩]
    { tasks := [], console := ["Failed to delete task"] }
  exact ⟨st3, h1, h3 _ (List.mem_singleton.mpr rfl) rfl⟩

/-! ## Derived views: order, purity, total -/

/-- C16. The filtered list is a sublist of the snapshot: it is obtained by deleting
elements, so it holds only tasks of the snapshot, each at most as often as the
snapshot does, in the snapshot's order. -/
theorem filteredTasks_sublist (toLowerCase : String → String) (tasks : List Task)
    (searchQuery filterStatus : String) :
    (filteredTasks toLowerCase tasks searchQuery filterStatus).Sublist tasks ∧
    filteredTasks toLowerCase tasks searchQuery filterStatus ⊆ tasks ∧
    ∀ t : Task,
      (filteredTasks toLowerCase tasks searchQuery filterStatus).count t ≤ tasks.count t :=
  have hsub : (filteredTasks toLowerCase tasks searchQuery filterStatus).Sublist tasks :=
    List.filter_sublist tasks
  ⟨hsub, hsub.subset, fun t => hsub.count_le t⟩

/-- C17. Evaluating the derived list in a render leaves everything in scope as it
was, the snapshot included; evaluating it again gives the same list; and two
renders that agree on the snapshot, the search text and the status filter give the
same list, whatever the rest of the state, the storage and the clock are. -/
theorem renderFilteredTasks_pure (toLowerCase : String → String) :
    (∀ r : RenderState, (renderFilteredTasks toLowerCase r).2 = r) ∧
    (∀ r : RenderState,
      (renderFilteredTasks toLowerCase (renderFilteredTasks toLowerCase r).2).1 =
        (renderFilteredTasks toLowerCase r).1) ∧
    (∀ r r2 : RenderState, r.tasks = r2.tasks → r.searchQuery = r2.searchQuery →
      r.filterStatus = r2.filterStatus →
      (renderFilteredTasks toLowerCase r).1 = (renderFilteredTasks toLowerCase r2).1) := by
  refine ⟨fun _ => rfl, fun _ => rfl, ?_⟩
  intro r r2 ht hq hf
  simp only [renderFilteredTasks, ht, hq, hf]

/-- C17, at two renders that differ in the dialog, the storage and the clock. -/
theorem renderFilteredTasks_pure_witness :
    (renderFilteredTasks String.toLower
        { tasks := [⟨1, "Buy milk", none, "TODO", "LOW", none⟩]
          searchQuery := "milk", filterStatus := "pending"
          newTask := ⟨"", "", "MEDIUM", "TODO", ""⟩
          showNewTaskModal := false, showUserMenu := false, showMobileMenu := false
          storage := { token := some "jwt", user := none }, now := 0 }).1 =
      (renderFilteredTasks String.toLower
        { tasks := [⟨1, "Buy milk", none, "TODO", "LOW", none⟩]
          searchQuery := "milk", filterStatus := "pending"
          newTask := ⟨"Call Bob", "", "HIGH", "TODO", ""⟩
          showNewTaskModal := true, showUserMenu := true, showMobileMenu := false
          storage := { token := none, user := none }, now := 86400000 }).1 :=
  (renderFilteredTasks_pure String.toLower).2.2 _ _ rfl rfl rfl

/-- C18. The `total` counter is the length of the snapshot. -/
theorem stats_total (parseDate : String → Option Int) (now : Int) (tasks : List Task) :
    (stats parseDate now tasks).total = tasks.length :=
  rfl

/-! ## The overdue test on the due day -/

/-- C19, as stated, fails: a `"TODO"` task whose due day starts at instant 0 is
counted as overdue at instant 1, which lies within that day. -/
theorem overdue_within_due_day :
    (0 : Int) ≤ 1 ∧ (1 : Int) < 0 + msPerDay ∧
    isOverdue (fun _ => some 0) 1
      ⟨1, "Buy milk", none, "TODO", "LOW", some "1970-01-01"⟩ = true ∧
    (stats (fun _ => some 0) 1
      [⟨1, "Buy milk", none, "TODO", "LOW", some "1970-01-01"⟩]).overdue = 1 := by
  refine ⟨by decide, by decide, by decide, by decide⟩

/-- C19, amended. For a task with a due date whose status is not `"DONE"`, the
overdue test holds exactly when the start-of-day instant of the due date is strictly
before the evaluation instant: the task is counted at every instant of the due day
after its first, and is not counted at or before the start of the due day. -/
theorem isOverdue_iff_start_lt (parseDate : String → Option Int) (now start : Int)
    (t : Task) (d : String) (hd : t.dueDate = some d) (hne : d ≠ "")
    (hp : parseDate d = some start) (hs : t.status ≠ "DONE") :
    (isOverdue parseDate now t = true ↔ start < now) ∧
    (start < now → now < start + msPerDay → (stats parseDate now [t]).overdue = 1) ∧
    (now ≤ start → (stats parseDate now [t]).overdue = 0) := by
  have hiff : isOverdue parseDate now t = true ↔ start < now := by
    simp [isOverdue, hd, hp, hne, hs]
  refine ⟨hiff, ?_, ?_⟩
  · intro hlt _
    have h := hiff.mpr hlt
    simp [stats, List.filter_cons, h]
  · intro hle
    have h : isOverdue parseDate now t = false := by
      cases hb : isOverdue parseDate now t with
      | false => rfl
      | true => exact absurd (hiff.mp hb) (not_lt.mpr hle)
    simp [stats, List.filter_cons, h]

/-- C19 amended, at noon of the due day. -/
theorem isOverdue_iff_start_lt_witness :
    (stats (fun _ => some 0) 43200000
      [⟨1, "Buy milk", none, "TODO", "LOW", some "1970-01-01"⟩]).overdue = 1 :=
  (isOverdue_iff_start_lt (fun _ => some 0) 43200000 0
    ⟨1, "Buy milk", none, "TODO", "LOW", some "1970-01-01"⟩ "1970-01-01" rfl (by decide) rfl
    (by decide)).2.1 (by decide) (by decide)

/-! ## Display name -/

/-- C20, as stated, fails: for the persisted identity with no name and the email
`"@example.org"` the local part is empty and the display name is `"User"`; and
after a register whose response carries the empty name the display name is the
local part of the email, not the name returned. -/
theorem userName_falls_back_to_User :
    localPart "@example.org" = "" ∧
    userName ⟨none, some "@example.org"⟩ = "User" ∧
    userName ⟨none, some "@example.org"⟩ ≠ localPart "@example.org" ∧
    userName (storedUser (handleRegister_settle (.ok ⟨"jwt", "", "ann@example.org"⟩)
      { error := "", isLoading := true }
      (App.init { token := none, user := none })).2.storage) = "ann" := by
  refine ⟨by decide, by decide, by decide, by decide⟩

/-- C20, amended. The display name is the stored name when that is non-empty; else
the local part of the stored email when that is non-empty; else `"User"`. After a
successful login it is the local part of the submitted email when that is
non-empty; after a successful register it is the name the remote returned when
that is non-empty. The local part is the text before the first `@`. -/
theorem userName_spec :
    (∀ (u : StoredUser) (name : String), u.name = some name → name ≠ "" →
      userName u = name) ∧
    (∀ (u : StoredUser) (email : String), (u.name = none ∨ u.name = some "") →
      u.email = some email → localPart email ≠ "" → userName u = localPart email) ∧
    (∀ u : StoredUser, (u.name = none ∨ u.name = some "") →
      (u.email = none ∨ ∃ email, u.email = some email ∧ localPart email = "") →
      userName u = "User") ∧
    (∀ (email token : String) (form : FormState) (s : Session), localPart email ≠ "" →
      userName (storedUser (handleLogin_settle email (.ok token) form s).2.storage) =
        localPart email) ∧
    (∀ (data : RegisterData) (form : FormState) (s : Session), data.name ≠ "" →
      userName (storedUser (handleRegister_settle (.ok data) form s).2.storage) =
        data.name) ∧
    (∀ a b : String, '@' ∉ a.data → localPart (a ++ "@" ++ b) = a) := by
  refine ⟨userName_of_name, userName_of_email, userName_default, ?_, ?_, localPart_append⟩
  · intro email token form s hne
    exact userName_of_email _ email (Or.inl rfl) rfl hne
  · intro data form s hne
    exact userName_of_name _ data.name rfl hne

/-- C20 amended, after a login with `"ann@example.org"` and after a register that
returns the name `"Ann"`. -/
theorem userName_spec_witness :
    userName (storedUser (handleLogin_settle "ann@example.org" (.ok "jwt")
      { error := "", isLoading := true }
      (App.init { token := none, user := none })).2.storage) = localPart "ann@example.org" ∧
    userName (storedUser (handleRegister_settle (.ok ⟨"jwt", "Ann", "ann@example.org"⟩)
      { error := "", isLoading := true }
      (App.init { token := none, user := none })).2.storage) = "Ann" :=
  ⟨userName_spec.2.2.2.1 "ann@example.org" "jwt" { error := "", isLoading := true }
      (App.init { token := none, user := none }) (by decide),
   userName_spec.2.2.2.2.1 ⟨"jwt", "Ann", "ann@example.org"⟩ { error := "", isLoading := true }
      (App.init { token := none, user := none }) (by decide)⟩

/-! ## Repeating a status update -/

/-- C21. Against a remote that stores the last written value, calling
`handleToggleTask` twice with the same task and then refreshing ends with the same
cached list as calling it once and then refreshing, and in both runs that list is
the one the remote holds; whatever the remote answers, no call throws.
When both PUTs are acknowledged the cached list after the second call already
equals the one after the first. -/
theorem runToggle_twice_eq_once {R : Type} (m : Remote R) (h : m.storesLastWrite)
    (task : Task) (w : R × DashState) :
    (∃ once twice : R × DashState,
      (runToggle m task w).bind (runRefresh m) = .ok once ∧
      ((runToggle m task w).bind (runToggle m task)).bind (runRefresh m) = .ok twice ∧
      twice.2.tasks = once.2.tasks ∧
      once.2.tasks = m.list once.1 ∧
      twice.2.tasks = m.list twice.1) ∧
    (∀ st st1 st2 : DashState,
      handleToggleTask_settle task (.ok ()) st = .ok { state := st1, issued := [] } →
      handleToggleTask_settle task (.ok ()) st1 = .ok { state := st2, issued := [] } →
      st2.tasks = st1.tasks) := by
  constructor
  · obtain ⟨st1, h1⟩ := runToggle_ok m task w
    obtain ⟨st2, h2⟩ := runToggle_ok m task
      ((m.put w.1 task.id
        { title := task.title, description := task.description, status := newStatus task
          priority := task.priority, dueDate := orNull task.dueDate }).1, st1)
    generalize hbody : ({ title := task.title, description := task.description
                          status := newStatus task, priority := task.priority
                          dueDate := orNull task.dueDate } : PutBody) = body at h1 h2
    have hr : m.list (m.put (m.put w.1 task.id body).1 task.id body).1 =
        m.list (m.put w.1 task.id body).1 :=
      h w.1 task.id body
    have hb1 : (runToggle m task w).bind (runRefresh m) =
        .ok ((m.put w.1 task.id body).1,
          { st1 with tasks := m.list (m.put w.1 task.id body).1 }) := by
      rw [h1]
      rfl
    have hb2 : ((runToggle m task w).bind (runToggle m task)).bind (runRefresh m) =
        .ok ((m.put (m.put w.1 task.id body).1 task.id body).1,
          { st2 with tasks := m.list (m.put (m.put w.1 task.id body).1 task.id body).1 }) := by
      rw [h1]
      simp only [Except.bind]
      rw [h2]
      rfl
    exact ⟨_, _, hb1, hb2, hr, rfl, rfl⟩
  · intro st st1 st2 h1 h2
    simp only [handleToggleTask_settle, tryElse, Except.ok.injEq, Step.mk.injEq, and_true] at h1 h2
    subst h1
    subst h2
    exact toggle_map_idem task st.tasks

/-- C21, against the list remote: task 1 is toggled from a cache and a remote that
both hold it with status `"TODO"`. -/
theorem runToggle_twice_eq_once_witness :
    ∃ once twice : List Task × DashState,
      (runToggle listRemote ⟨1, "Buy milk", none, "TODO", "LOW", none⟩
        ([⟨1, "Buy milk", none, "TODO", "LOW", none⟩],
         { tasks := [⟨1, "Buy milk", none, "TODO", "LOW", none⟩], console := [] })).bind
        (runRefresh listRemote) = .ok once ∧
      ((runToggle listRemote ⟨1, "Buy milk", none, "TODO", "LOW", none⟩
        ([⟨1, "Buy milk", none, "TODO", "LOW", none⟩],
         { tasks := [⟨1, "Buy milk", none, "TODO", "LOW", none⟩], console := [] })).bind
        (runToggle listRemote ⟨1, "Buy milk", none, "TODO", "LOW", none⟩)).bind
        (runRefresh listRemote) = .ok twice ∧
      twice.2.tasks = once.2.tasks ∧
      once.2.tasks = listRemote.list once.1 ∧
      twice.2.tasks = listRemote.list twice.1 :=
  (runToggle_twice_eq_once listRemote listRemote_storesLastWrite
    ⟨1, "Buy milk", none, "TODO", "LOW", none⟩
    ([⟨1, "Buy milk", none, "TODO", "LOW", none⟩],
     { tasks := [⟨1, "Buy milk", none, "TODO", "LOW", none⟩], console := [] })).1

/-! ## Local updates of the cache -/

/-- C22. When the ids of the cached tasks are pairwise distinct, they are pairwise
distinct again after an acknowledged `handleToggleTask` and after an acknowledged
`handleDeleteTask`. -/
theorem distinctIds_preserved (st : DashState) (h : distinctIds st.tasks) :
    (∀ task : Task, ∃ st1 : DashState,
      handleToggleTask_settle task (.ok ()) st = .ok { state := st1, issued := [] } ∧
      distinctIds st1.tasks) ∧
    (∀ taskId : Nat, ∃ st1 : DashState,
      handleDeleteTask_settle taskId (.ok ()) st = .ok { state := st1, issued := [] } ∧
      distinctIds st1.tasks) := by
  constructor
  · intro task
    refine ⟨_, rfl, ?_⟩
    show List.Pairwise _ (st.tasks.map _)
    rw [List.pairwise_map]
    refine h.imp ?_
    intro a b hab
    have ha : (if (a.id == task.id) = true then { a with status := newStatus task }
        else a).id = a.id := by split <;> rfl
    have hb : (if (b.id == task.id) = true then { b with status := newStatus task }
        else b).id = b.id := by split <;> rfl
    rw [ha, hb]
    exact hab
  · intro taskId
    exact ⟨_, rfl, List.Pairwise.filter _ h⟩

/-- C22, at a cache of two tasks with ids 1 and 2. -/
theorem distinctIds_preserved_witness :
    (∃ st1 : DashState,
      handleToggleTask_settle ⟨1, "Buy milk", none, "TODO", "LOW", none⟩ (.ok ())
          { tasks := [⟨1, "Buy milk", none, "TODO", "LOW", none⟩,
                      ⟨2, "Pay rent", none, "DONE", "HIGH", none⟩], console := [] } =
        .ok { state := st1, issued := [] } ∧
      distinctIds st1.tasks) ∧
    (∃ st1 : DashState,
      handleDeleteTask_settle 2 (.ok ())
          { tasks := [⟨1, "Buy milk", none, "TODO", "LOW", none⟩,
                      ⟨2, "Pay rent", none, "DONE", "HIGH", none⟩], console := [] } =
        .ok { state := st1, issued := [] } ∧
      distinctIds st1.tasks) :=
  have h := distinctIds_preserved
    { tasks := [⟨1, "Buy milk", none, "TODO", "LOW", none⟩,
                ⟨2, "Pay rent", none, "DONE", "HIGH", none⟩], console := [] }
    (by simp [distinctIds])
  ⟨h.1 ⟨1, "Buy milk", none, "TODO", "LOW", none⟩, h.2 2⟩

/-- C23. An acknowledged `handleToggleTask` keeps the length of the cached list and
the sequence of its ids, leaves every task with another id in place unchanged, and
replaces a task with the toggled id by the same task with the new status; the
console is untouched. An acknowledged `handleDeleteTask` leaves a sublist of the
cached list that holds exactly the tasks with another id, each as often as before. -/
theorem local_updates_frame (st : DashState) :
    (∀ task : Task, ∃ st1 : DashState,
      handleToggleTask_settle task (.ok ()) st = .ok { state := st1, issued := [] } ∧
      st1.tasks.length = st.tasks.length ∧
      st1.tasks.map Task.id = st.tasks.map Task.id ∧
      (∀ (i : Nat) (t : Task), st.tasks[i]? = some t → t.id ≠ task.id →
        st1.tasks[i]? = some t) ∧
      (∀ (i : Nat) (t : Task), st.tasks[i]? = some t → t.id = task.id →
        st1.tasks[i]? = some { t with status := newStatus task }) ∧
      st1.console = st.console) ∧
    (∀ taskId : Nat, ∃ st1 : DashState,
      handleDeleteTask_settle taskId (.ok ()) st = .ok { state := st1, issued := [] } ∧
      st1.tasks.Sublist st.tasks ∧
      (∀ t : Task, t ∈ st1.tasks ↔ t ∈ st.tasks ∧ t.id ≠ taskId) ∧
      (∀ t : Task, t.id ≠ taskId → st1.tasks.count t = st.tasks.count t) ∧
      st1.console = st.console) := by
  constructor
  · intro task
    refine ⟨_, rfl, ?_, toggle_map_id task st.tasks, ?_, ?_, rfl⟩
    · simp
    · intro i t hi hne
      simp [List.getElem?_map, hi, hne]
    · intro i t hi heq
      simp [List.getElem?_map, hi, heq]
  · intro taskId
    refine ⟨_, rfl, List.filter_sublist _, ?_, ?_, rfl⟩
    · intro t
      simp [List.mem_filter]
    · intro t hne
      exact List.count_filter (by simpa using hne)

/-- C23, at a cache of two tasks: toggling task 1 leaves task 2 in second place, and
removing task 1 leaves task 2 as often as before. -/
theorem local_updates_frame_witness :
    (∃ st1 : DashState,
      handleToggleTask_settle ⟨1, "Buy milk", none, "TODO", "LOW", none⟩ (.ok ())
          { tasks := [⟨1, "Buy milk", none, "TODO", "LOW", none⟩,
                      ⟨2, "Pay rent", none, "DONE", "HIGH", none⟩], console := [] } =
        .ok { state := st1, issued := [] } ∧
      st1.tasks[1]? = some ⟨2, "Pay rent", none, "DONE", "HIGH", none⟩) ∧
    (∃ st1 : DashState,
      handleDeleteTask_settle 1 (.ok ())
          { tasks := [⟨1, "Buy milk", none, "TODO", "LOW", none⟩,
                      ⟨2, "Pay rent", none, "DONE", "HIGH", none⟩], console := [] } =
        .ok { state := st1, issued := [] } ∧
      st1.tasks.count ⟨2, "Pay rent", none, "DONE", "HIGH", none⟩ =
        ([⟨1, "Buy milk", none, "TODO", "LOW", none⟩,
          ⟨2, "Pay rent", none, "DONE", "HIGH", none⟩] : List Task).count
          ⟨2, "Pay rent", none, "DONE", "HIGH", none⟩) := by
  have h := local_updates_frame
    { tasks := [⟨1, "Buy milk", none, "TODO", "LOW", none⟩,
                ⟨2, "Pay rent", none, "DONE", "HIGH", none⟩], console := [] }
  obtain ⟨st1, h1, _, _, h4, _, _⟩ := h.1 ⟨1, "Buy milk", none, "TODO", "LOW", none⟩
  obtain ⟨st2, h5, _, _, h8, _⟩ := h.2 1
  exact ⟨⟨st1, h1, h4 1 _ rfl (by decide)⟩, ⟨st2, h5, h8 _ (by decide)⟩⟩

end TaskFlow
